import Mathlib

/-!
Verification development for the `dnsblast` engine
(src/src/dnsblast/dns-blast.go).

The Go source is shallowly embedded as executable Lean definitions:

* pure helpers (`getNameservers`, `joinHostPort`, `fqdn`) become plain
  functions, with external DNS resolution (`net.LookupNS`) passed in as a
  function argument;
* the two single-query executors (`SimpleQuery`,
  `SimpleQueryWithNoResponse`) become functions from an abstract network
  environment (dial / exchange outcomes) to the list of network-level
  operations they perform plus their returned value;
* the per-nameserver round-loop (`ExecuteStressTest`, lines 89-151) is
  modelled twice, at two standard abstraction levels:
  - a nondeterministic small-step transition system (`Step` / `Reachable`)
    for the concurrency claims (fan-out bound, round ordering, QName
    write discipline, cancellation);
  - a deterministic per-round recurrence (`roundRec`) for the heartbeat
    counter and the ticker-based pacing, under the usual idealisation
    that non-blocking statements take zero time.

Machine integers: Go `int`/`time.Duration` are embedded as `Int` where a
claim depends on signedness (ticker panic on `Delay <= 0`) and as `Nat`
for counters and times that the source never makes negative.
-/

namespace DnsBlast

/-! ## Constants (dns-blast.go lines 18-25, 214-218) -/

def DefaultDNSPort : Nat := 53

def DefaultDNSOverTLSPort : Nat := 853

def UDPProtoName : String := "udp"

def TCPProtoName : String := "tcp"

def TCPTLSProtoName : String := "tcp-tls"

/-- `dns.TypeA` from the miekg/dns dependency: the only query type the
engine uses (line 97). -/
def dnsTypeA : Nat := 1

/-! ## Configuration data (lines 27-33, 82-87) -/

/-- `Config` (lines 27-33). `Delay` is a Go `time.Duration` (signed 64-bit
nanoseconds), embedded as `Int`; `ParallelQueries` is a Go `int`, also
embedded as `Int` (the source never checks its sign). -/
structure Config where
  RootDomain : String
  Protocol : String
  SeedDomains : List String
  Delay : Int
  ParallelQueries : Int
deriving DecidableEq, Repr

/-- `StressTestParameters` (lines 82-87): the read-only projection of
`Config` shared with every worker. -/
structure StressTestParameters where
  Delay : Int
  ParallelQueries : Int
  Protocol : String
  SeedDomains : List String
deriving DecidableEq, Repr

/-- Construction of the shared parameters inside `Start` (lines 55-60). -/
def stressTestParametersOf (config : Config) : StressTestParameters :=
  { Delay := config.Delay
    ParallelQueries := config.ParallelQueries
    Protocol := config.Protocol
    SeedDomains := config.SeedDomains }

/-! ## Nameserver resolution (lines 240-256) -/

/-- `net.JoinHostPort` from the Go standard library: brackets the host
when it contains a colon (IPv6 literal), otherwise plain `host:port`. -/
def joinHostPort (host port : String) : String :=
  if host.data.contains ':' then "[" ++ host ++ "]:" ++ port else host ++ ":" ++ port

/-- `getNameservers` (lines 240-256).  System DNS resolution
(`net.LookupNS`, line 246) is an external effect and is passed in as
`lookupNS`, returning either the NS hosts or a resolution error. -/
def getNameservers (lookupNS : String → Except String (List String))
    (rootDomain protocol : String) : Except String (List String) :=
  let port := if protocol = TCPTLSProtoName then DefaultDNSOverTLSPort else DefaultDNSPort
  match lookupNS rootDomain with
  | .error e => .error e
  | .ok nameservers => .ok (nameservers.map fun ns => joinHostPort ns (toString port))

/-! ## Worker setup and panic containment (lines 89-112, 37-76) -/

/-- Outcome of the setup phase of `ExecuteStressTest` (lines 89-112),
with the blast loop itself abstracted as `enteredLoop` (the loop body is
modelled separately by `Step` and `roundRec` below).  `panicked` is a Go
panic escaping the function body to its deferred handler. -/
inductive SetupOutcome
  | panicked (msg : String)
  | generatorError (msg : String)
  | enteredLoop
deriving DecidableEq, Repr

/-- The panic message of `time.NewTicker` in the Go standard library. -/
def tickerPanicMsg : String := "non-positive interval for NewTicker"

/-- `time.NewTicker(d)` (line 102).  Modelled from the Go standard
library's documented contract: it panics when `d <= 0`; the embedding
returns the panic as an `Except.error`. -/
def newTickerChecked (d : Int) : Except String Unit :=
  if d ≤ 0 then .error tickerPanicMsg else .ok ()

/-- The setup phase of `ExecuteStressTest` (lines 89-112) in source
order: the `var` block creates the inter-round ticker (line 102, panics
on `Delay ≤ 0`), then the DNS client is built (line 104) and the
distinct-heavy-hitter generator is bootstrapped (lines 106-109, returns
an error on failure); only then is the blast loop (line 114) entered.
`generatorOk` abstracts whether `NewDistinctHeavyHitterGenerator`
succeeds (its implementation is outside this file's source). -/
def executeStressTestSetup (delay : Int) (generatorOk : Bool) : SetupOutcome :=
  match newTickerChecked delay with
  | .error m => .panicked m
  | .ok () =>
    if generatorOk then .enteredLoop
    else .generatorError "failed to bootstrap the distinct heavy hitter generator"

/-- Result of running a worker body under its deferred recovery
boundary. -/
inductive Contained
  | recovered (loggedPanic : String)
  | passedThrough (o : SetupOutcome)
deriving DecidableEq, Repr

/-- Modelled from the spec: `utils.PanicHandler` (the process-wide
supervised-task facility deferred at lines 38, 64, 90, 134) lives in the
repository's `utils` package, which is not under `src/`; per spec section 5
and 6 it "catches unexpected failures, logs them, and allows sibling
tasks/the process to continue".  A panic is therefore caught and logged
at the worker boundary; any other outcome passes through unchanged. -/
def PanicHandler : SetupOutcome → Contained
  | .panicked m => .recovered m
  | o => .passedThrough o

/-- A worker spawned by `Start` (lines 62-73): the `go` statement forks
`ExecuteStressTest ctx nameserver parameters`; the record holds the
arguments the goroutine is started with. -/
structure SpawnedWorker where
  nameserver : String
  parameters : StressTestParameters
deriving DecidableEq, Repr

/-- `Start` (lines 37-76).  `lookupNS` abstracts system DNS resolution;
`run` abstracts the body each spawned goroutine will execute
(`ExecuteStressTest`).  `Start` forks the workers with `go` and returns
at once: its return value is the resolution error (lines 44-48) or the
list of spawned workers, and — faithfully to `go` semantics — the
function never applies `run`, so its result is independent of anything
the workers do. -/
def Start (run : String → StressTestParameters → SetupOutcome)
    (lookupNS : String → Except String (List String)) (config : Config) :
    Except String (List SpawnedWorker) :=
  match getNameservers lookupNS config.RootDomain config.Protocol with
  | .error e => .error ("failed to resolve nameservers for the root domain: " ++ e)
  | .ok nameservers =>
    .ok (nameservers.map fun nameserver =>
      { nameserver := nameserver, parameters := stressTestParametersOf config })

/-! ## Single-query executors (lines 153-212) -/

/-- `QueryParameters` (lines 153-157). -/
structure QueryParameters where
  HostAndPort : String
  QName : String
  QType : Nat
deriving DecidableEq, Repr

/-- `Response` (lines 159-163).  `Err` is `Option String` (`nil` error
becomes `none`); `Latency` is `time.Duration`, as `Nat` nanoseconds. -/
structure Response where
  WithErr : Bool
  Err : Option String
  Latency : Nat
deriving DecidableEq, Repr

/-- Outcome of `sharedDNSClient.Dial` (lines 169, 195): a fresh
connection (identified by an id) or a dial error. -/
inductive DialOutcome
  | ok (connId : Nat)
  | err (e : String)
deriving DecidableEq, Repr

/-- The network environment one query runs against: what `Dial` returns,
and the error/latency of the DNS exchange if one is attempted. -/
structure QueryEnv where
  dial : DialOutcome
  exchangeErr : Option String
  rtt : Nat
deriving DecidableEq, Repr

/-- Network-level operations a query performs, in order.
`exchangeOverConn c` is `sharedDNSClient.ExchangeWithConn(question, co)`
(line 183): the exchange runs over the already-dialed connection `c`.
`exchangeOwnDial a` is `sharedDNSClient.Exchange(question, a)`
(line 207): per the miekg/dns dependency's contract, `Exchange` dials a
new connection to `a` itself and runs the exchange over that fresh
connection, not over any previously dialed one. -/
inductive QueryEv
  | dial (hostPort : String)
  | upgradeTLS (connId : Nat)
  | exchangeOverConn (connId : Nat) (qname : String) (qtype : Nat)
  | exchangeOwnDial (hostPort : String) (qname : String) (qtype : Nat)
  | closeConn (connId : Nat)
  | logErr
deriving DecidableEq, Repr

/-- `dns.Fqdn` (lines 167, 193): appends a trailing dot when the name
does not already end in one. -/
def fqdn (s : String) : String :=
  if s.data.getLast? = some '.' then s else s ++ "."

/-- `SimpleQuery` (lines 165-189): dial; on dial error return an error
`Response` (lines 170-175); otherwise upgrade the connection with a
randomized-ClientHello uTLS wrapper when the client transport is
`tcp-tls` (lines 178-180); perform the exchange over that connection
with `ExchangeWithConn` (line 183); close the connection (deferred,
line 181); return a `Response` recording error and latency.  Returns the
ordered operation trace together with the `Response`. -/
def SimpleQuery (clientNet : String) (env : QueryEnv) (p : QueryParameters) :
    List QueryEv × Response :=
  let q := fqdn p.QName
  match env.dial with
  | .err e => ([.dial p.HostAndPort], { WithErr := true, Err := some e, Latency := 0 })
  | .ok cid =>
    ([QueryEv.dial p.HostAndPort]
      ++ (if clientNet = TCPTLSProtoName then [QueryEv.upgradeTLS cid] else [])
      ++ [.exchangeOverConn cid q p.QType, .closeConn cid],
     { WithErr := env.exchangeErr.isSome, Err := env.exchangeErr, Latency := env.rtt })

/-- `SimpleQueryWithNoResponse` (lines 191-212): dial; on dial error log
and return (lines 196-200); otherwise upgrade the connection with the
uTLS wrapper when the transport is `tcp-tls` (lines 202-204); perform
the exchange with `sharedDNSClient.Exchange(question, HostAndPort)`
(line 207) — which dials its own fresh connection — logging any exchange
error (lines 208-211); close the originally dialed connection (deferred,
line 205).  Returns only the ordered operation trace: the function has
no return value. -/
def SimpleQueryWithNoResponse (clientNet : String) (env : QueryEnv)
    (p : QueryParameters) : List QueryEv :=
  let q := fqdn p.QName
  match env.dial with
  | .err _ => [.dial p.HostAndPort, .logErr]
  | .ok cid =>
    [QueryEv.dial p.HostAndPort]
      ++ (if clientNet = TCPTLSProtoName then [QueryEv.upgradeTLS cid] else [])
      ++ [.exchangeOwnDial p.HostAndPort q p.QType]
      ++ (if env.exchangeErr.isSome then [QueryEv.logErr] else [])
      ++ [.closeConn cid]

/-- Whether the query's environment makes it fail: a dial error, or an
error from the exchange it then attempts. -/
def queryFailed (env : QueryEnv) : Bool :=
  match env.dial with
  | .err _ => true
  | .ok _ => env.exchangeErr.isSome

/-! ## The blast loop as a small-step transition system (lines 114-148)

One worker's `blastLoop`, with the environment (context cancellation,
ticker ticks, goroutine scheduling) as nondeterministic steps.  The
program points of one loop iteration, in source order:

* `writeName` — the range assignment `reusableQuery.QName = <next name>`
  (line 115): one write to the QName field of the single shared
  `QueryParameters` struct allocated at lines 94-98;
* `heartbeat` — the keep-alive counter check and log (lines 116-121);
* `checkCancel1` — the non-blocking `select` on `ctx.Done()` with a
  `default` branch (lines 123-129): breaks out iff the context is done;
* `dispatch k` — `awaitGroup.Add(N)` followed by the spawn loop
  (lines 131-138) with `k` goroutines spawned so far;
* `await` — `awaitGroup.Wait()` (line 139): returns only once every
  spawned goroutine has called `Done`;
* `pace` — the blocking `select` on `ctx.Done()` versus the ticker
  channel (lines 141-147); when both are ready Go chooses randomly,
  modelled as nondeterminism;
* `stopped` — after `break blastLoop`.
-/

/-- Program points of one `blastLoop` iteration (see above). -/
inductive Phase
  | writeName
  | heartbeat
  | checkCancel1
  | dispatch (spawned : Nat)
  | await
  | pace
  | stopped
deriving DecidableEq, Repr

/-- State of one worker's loop plus its environment and event counters:
`round` — completed `range` iterations (0-based index of the current
round); `kac` — `keepAliveCounter` (line 100); `outstanding` — goroutines
spawned but not yet `Done` (the `awaitGroup` balance); `spawnedInRound` —
goroutines spawned by the current round's dispatch; `canceled` — whether
`ctx.Done()` is closed; `tickReady` — whether a tick sits in the ticker's
one-slot channel buffer; `obs` — how many times the current round has
executed a `select` that observes `ctx.Done()`; `sac` — goroutines
spawned strictly after `canceled` became true; `writes` — total writes so
far to the QName field of the shared `QueryParameters` struct. -/
structure WState where
  phase : Phase
  round : Nat
  kac : Nat
  outstanding : Nat
  spawnedInRound : Nat
  canceled : Bool
  tickReady : Bool
  obs : Nat
  sac : Nat
  writes : Nat
deriving DecidableEq, Repr

/-- Worker state on entering the blast loop (lines 92-114): counter 0,
no goroutines, first round about to write its name. -/
def initState : WState :=
  { phase := .writeName, round := 0, kac := 0, outstanding := 0,
    spawnedInRound := 0, canceled := false, tickReady := false,
    obs := 0, sac := 0, writes := 0 }

/-- One step of the worker or its environment; `N` is
`parameters.ParallelQueries` as an iteration count.  Program steps follow
the source order given at `Phase`; environment steps are `cancelFire`
(the shared context is canceled — monotone, fires at most once),
`tickFire` (the ticker delivers a tick into its empty one-slot buffer;
ticks arriving while the buffer is full are dropped, hence the `false`
precondition) and `taskDone` (a spawned goroutine finishes its query and
calls `awaitGroup.Done()`, possible whenever one is in flight — queries
are never aborted by the loop). -/
inductive Step (N : Nat) : WState → WState → Prop
  | write (s : WState) : s.phase = .writeName →
      Step N s { s with phase := .heartbeat, writes := s.writes + 1, obs := 0 }
  | heartbeat (s : WState) : s.phase = .heartbeat →
      Step N s { s with phase := .checkCancel1,
                        kac := if s.kac = 256 then 0 else s.kac + 1 }
  | check1Pass (s : WState) : s.phase = .checkCancel1 → s.canceled = false →
      Step N s { s with phase := .dispatch 0, obs := s.obs + 1 }
  | check1Stop (s : WState) : s.phase = .checkCancel1 → s.canceled = true →
      Step N s { s with phase := .stopped, obs := s.obs + 1 }
  | spawn (s : WState) (k : Nat) : s.phase = .dispatch k → k < N →
      Step N s { s with phase := .dispatch (k + 1),
                        outstanding := s.outstanding + 1,
                        spawnedInRound := s.spawnedInRound + 1,
                        sac := if s.canceled then s.sac + 1 else s.sac }
  | dispatchDone (s : WState) : s.phase = .dispatch N →
      Step N s { s with phase := .await }
  | taskDone (s : WState) : 0 < s.outstanding →
      Step N s { s with outstanding := s.outstanding - 1 }
  | awaitReturn (s : WState) : s.phase = .await → s.outstanding = 0 →
      Step N s { s with phase := .pace }
  | paceTick (s : WState) : s.phase = .pace → s.tickReady = true →
      Step N s { s with phase := .writeName, round := s.round + 1,
                        tickReady := false, obs := s.obs + 1, spawnedInRound := 0 }
  | paceStop (s : WState) : s.phase = .pace → s.canceled = true →
      Step N s { s with phase := .stopped, obs := s.obs + 1 }
  | cancelFire (s : WState) : s.canceled = false →
      Step N s { s with canceled := true }
  | tickFire (s : WState) : s.tickReady = false →
      Step N s { s with tickReady := true }

/-- States a worker with fan-out `N` can reach from loop entry. -/
inductive Reachable (N : Nat) : WState → Prop
  | init : Reachable N initState
  | step {s t : WState} : Reachable N s → Step N s t → Reachable N t

/-- Goroutines the current round may still spawn at a given program
point: only a partially executed spawn loop has any left. -/
def remSpawn (N : Nat) : Phase → Nat
  | .dispatch k => N - k
  | _ => 0

/-- Invariant of the blast loop, proved preserved by every `Step`. -/
def Inv (N : Nat) (s : WState) : Prop :=
  s.outstanding ≤ N
  ∧ (∀ k, s.phase = .dispatch k → k ≤ N ∧ s.outstanding ≤ k ∧ s.spawnedInRound = k)
  ∧ (s.phase = .await → s.spawnedInRound = N)
  ∧ (s.phase = .pace → s.outstanding = 0 ∧ s.spawnedInRound = N)
  ∧ ((s.phase = .writeName ∨ s.phase = .heartbeat ∨ s.phase = .checkCancel1) →
      s.outstanding = 0 ∧ s.spawnedInRound = 0)
  ∧ (s.phase = .writeName → s.obs = if s.round = 0 then 0 else 2)
  ∧ ((s.phase = .heartbeat ∨ s.phase = .checkCancel1) → s.obs = 0)
  ∧ (((∃ k, s.phase = .dispatch k) ∨ s.phase = .await ∨ s.phase = .pace) → s.obs = 1)
  ∧ (s.canceled = true → s.sac + remSpawn N s.phase ≤ N)
  ∧ (s.canceled = false → s.sac = 0)
  ∧ (s.phase = .writeName → s.writes = s.round)
  ∧ (s.phase ≠ .writeName → s.phase ≠ .stopped → s.writes = s.round + 1)

/-! ## The blast loop as a deterministic per-round recurrence

For the heartbeat schedule and the ticker-based pacing, the loop is also
modelled as a recurrence over completed rounds, under the idealisation
that only query execution and ticker waits take time.  The ticker
(created at worker start, line 102, period `d`) fires at `d, 2d, 3d, …`
into a one-slot buffer; the blocking receive at line 145 therefore
completes at the later of the receive's begin time and the first tick
after the previously consumed one.  With `startTime k` the begin of
round `k` and `exec k` its execution time (dispatch through join), the
receive after round `k` begins at `startTime k + exec k` and consumes the
first tick strictly after `startTime k` (the previous consume — or the
ticker's creation, for round 0 — happened at `startTime k`). -/

/-- The least multiple of `d` strictly greater than `t`. -/
def leastMultGT (d t : Nat) : Nat := d * (t / d + 1)

/-- `keepAliveCounter` update of one round (lines 116-121): reset on
reaching `keepAliveReminder = 256` (that is the heartbeat round),
otherwise increment. -/
def kacNext (c : Nat) : Nat := if c = 256 then 0 else c + 1

/-- What one round of the blast loop yields: its start time, the
keep-alive counter it starts with, whether it logs the heartbeat
(line 117, exactly when the counter equals 256), and how many queries it
dispatches (lines 131-138: always `ParallelQueries`). -/
structure RoundRec where
  startTime : Nat
  kacBefore : Nat
  heartbeat : Bool
  dispatched : Nat
deriving DecidableEq, Repr

/-- Round `k` of the blast loop without cancellation: `d` the ticker
period (`parameters.Delay`), `N` the fan-out, `exec k` round `k`'s
execution time. -/
def roundRec (d N : Nat) (exec : Nat → Nat) : Nat → RoundRec
  | 0 => { startTime := 0, kacBefore := 0, heartbeat := (0 == 256), dispatched := N }
  | k + 1 =>
    let p := roundRec d N exec k
    { startTime := max (p.startTime + exec k) (leastMultGT d p.startTime)
      kacBefore := kacNext p.kacBefore
      heartbeat := (kacNext p.kacBefore == 256)
      dispatched := N }

/-- The start-time recurrence alone, independent of the keep-alive
counter (used to state that the heartbeat has no effect on pacing). -/
def sTime (d : Nat) (exec : Nat → Nat) : Nat → Nat
  | 0 => 0
  | k + 1 => max (sTime d exec k + exec k) (leastMultGT d (sTime d exec k))

/-! ## Concrete environments and states used by the claim theorems -/

/-- A network environment in which the dial succeeds (connection id 0)
and the exchange succeeds with a 7ns round trip. -/
def tlsBugEnv : QueryEnv := { dial := .ok 0, exchangeErr := none, rtt := 7 }

/-- Query parameters for one concrete query. -/
def tlsBugParams : QueryParameters :=
  { HostAndPort := "ns1.example.com:853", QName := "a.example.com", QType := dnsTypeA }

/-- A network environment in which the dial fails. -/
def dialFailEnv : QueryEnv :=
  { dial := .err "connection refused", exchangeErr := none, rtt := 0 }

/-- A concrete configuration (the spec's section 8 scenario). -/
def demoConfig : Config :=
  { RootDomain := "example.com", Protocol := "udp",
    SeedDomains := ["a.example.com"], Delay := 10, ParallelQueries := 4 }

/-- Query parameters used by the failure-containment witness. -/
def plainQueryParams : QueryParameters :=
  { HostAndPort := "ns2.example.com:53", QName := "b.example.com", QType := dnsTypeA }

/-- A worker state with fan-out 2 at its pacing point after round 0:
both queries of the round were spawned and joined. -/
def paceState2 : WState :=
  { phase := .pace, round := 0, kac := 1, outstanding := 0, spawnedInRound := 2,
    canceled := false, tickReady := false, obs := 1, sac := 0, writes := 1 }

/-- A worker state with fan-out 1 at its pacing point after round 0. -/
def qnamePaceState : WState :=
  { phase := .pace, round := 0, kac := 1, outstanding := 0, spawnedInRound := 1,
    canceled := false, tickReady := false, obs := 1, sac := 0, writes := 1 }

/-- A worker state with fan-out 1 inside round 1, right after round 1's
write to the shared QName field: the same field has now been written
twice (once per round). -/
def qnameSecondWriteState : WState :=
  { phase := .heartbeat, round := 1, kac := 1, outstanding := 0, spawnedInRound := 0,
    canceled := false, tickReady := false, obs := 0, sac := 0, writes := 2 }

/-- A worker state with fan-out 1 in which the context is canceled while
round 0's single query is still in flight (awaiting the join). -/
def canceledAwaitState : WState :=
  { phase := .await, round := 0, kac := 1, outstanding := 1, spawnedInRound := 1,
    canceled := true, tickReady := false, obs := 1, sac := 0, writes := 1 }

/-! ## Helper lemmas -/

theorem inv_init (N : Nat) : Inv N initState := by
  simp [Inv, initState, remSpawn]

theorem remSpawn_le (N : Nat) (p : Phase) : remSpawn N p ≤ N := by
  cases p <;> simp [remSpawn]

theorem inv_step {N : Nat} {s t : WState} (hinv : Inv N s) (h : Step N s t) :
    Inv N t := by
  obtain ⟨h1, h2, h3, h4, h5, h6, h7, h8, h9, h10, h11, h12⟩ := hinv
  cases h with
  | write hp => simp_all [Inv, remSpawn]
  | heartbeat hp => simp_all [Inv, remSpawn]
  | check1Pass hp hc => simp_all [Inv, remSpawn]
  | check1Stop hp hc => simp_all [Inv, remSpawn]
  | spawn k hp hk =>
      obtain ⟨hkN, houtk, hsir⟩ := h2 k hp
      cases hcan : s.canceled <;> simp_all [Inv, remSpawn] <;> omega
  | dispatchDone hp => simp_all [Inv, remSpawn]
  | taskDone hout =>
      unfold Inv at *
      refine ⟨?_, fun k hk => ?_, h3, fun hp => ?_, fun hp => ?_,
        h6, h7, h8, h9, h10, h11, h12⟩
      · simp only [WState.outstanding]
        omega
      · obtain ⟨ha, hb, hc⟩ := h2 k hk
        exact ⟨ha, by simp only [WState.outstanding]; omega, hc⟩
      · obtain ⟨ha, hb⟩ := h4 hp
        exact ⟨by simp only [WState.outstanding]; omega, hb⟩
      · obtain ⟨ha, hb⟩ := h5 hp
        exact ⟨by simp only [WState.outstanding]; omega, hb⟩
  | awaitReturn hp hout => simp_all [Inv, remSpawn]
  | paceTick hp ht => simp_all [Inv, remSpawn]
  | paceStop hp hc => simp_all [Inv, remSpawn]
  | cancelFire hc =>
      have hrs := remSpawn_le N s.phase
      simp_all [Inv]
  | tickFire ht => simp_all [Inv, remSpawn]

theorem reachable_inv {N : Nat} {s : WState} (h : Reachable N s) : Inv N s := by
  induction h with
  | init => exact inv_init N
  | step _ hstep ih => exact inv_step ih hstep

theorem leastMultGT_le (d t : Nat) : leastMultGT d t ≤ t + d := by
  have h : d * (t / d) ≤ t := by
    rw [Nat.mul_comm]
    exact Nat.div_mul_le_self t d
  calc d * (t / d + 1) = d * (t / d) + d := by ring
    _ ≤ t + d := by omega

theorem roundRec_kacBefore (d N : Nat) (exec : Nat → Nat) (k : Nat) :
    (roundRec d N exec k).kacBefore = k % 257 := by
  induction k with
  | zero => rfl
  | succ k ih =>
    simp only [roundRec, kacNext, ih]
    split <;> omega

theorem roundRec_heartbeat (d N : Nat) (exec : Nat → Nat) (k : Nat) :
    (roundRec d N exec k).heartbeat = ((roundRec d N exec k).kacBefore == 256) := by
  cases k <;> simp [roundRec]

theorem roundRec_dispatched (d N : Nat) (exec : Nat → Nat) (k : Nat) :
    (roundRec d N exec k).dispatched = N := by
  cases k <;> simp [roundRec]

theorem roundRec_startTime (d N : Nat) (exec : Nat → Nat) (k : Nat) :
    (roundRec d N exec k).startTime = sTime d exec k := by
  induction k with
  | zero => rfl
  | succ k ih => simp only [roundRec, sTime, ih]

theorem paceState2_reachable : Reachable 2 paceState2 := by
  have r0 : Reachable 2 initState := .init
  have r1 := r0.step (.write _ rfl)
  have r2 := r1.step (.heartbeat _ rfl)
  have r3 := r2.step (.check1Pass _ rfl rfl)
  have r4 := r3.step (.spawn _ 0 rfl (by omega))
  have r5 := r4.step (.spawn _ 1 rfl (by omega))
  have r6 := r5.step (.dispatchDone _ rfl)
  have r7 := r6.step (.taskDone _ (by decide))
  have r8 := r7.step (.taskDone _ (by decide))
  exact r8.step (.awaitReturn _ rfl rfl)

theorem qnamePaceState_reachable : Reachable 1 qnamePaceState := by
  have r0 : Reachable 1 initState := .init
  have r1 := r0.step (.write _ rfl)
  have r2 := r1.step (.heartbeat _ rfl)
  have r3 := r2.step (.check1Pass _ rfl rfl)
  have r4 := r3.step (.spawn _ 0 rfl (by omega))
  have r5 := r4.step (.dispatchDone _ rfl)
  have r6 := r5.step (.taskDone _ (by decide))
  exact r6.step (.awaitReturn _ rfl rfl)

theorem qnameSecondWriteState_reachable : Reachable 1 qnameSecondWriteState := by
  have r7 := qnamePaceState_reachable
  have r8 := r7.step (.tickFire _ rfl)
  have r9 := r8.step (.paceTick _ rfl rfl)
  exact r9.step (.write _ rfl)

theorem canceledAwaitState_reachable : Reachable 1 canceledAwaitState := by
  have r0 : Reachable 1 initState := .init
  have r1 := r0.step (.write _ rfl)
  have r2 := r1.step (.heartbeat _ rfl)
  have r3 := r2.step (.check1Pass _ rfl rfl)
  have r4 := r3.step (.spawn _ 0 rfl (by omega))
  have r5 := r4.step (.dispatchDone _ rfl)
  exact r5.step (.cancelFire _ rfl)

/-! ## Claim theorems -/

/-- C1 (code_bug evaluation): with Protocol = tcp-tls and a successful
dial of connection 0, `SimpleQueryWithNoResponse` dials and uTLS-upgrades
connection 0 but performs its DNS exchange through
`sharedDNSClient.Exchange` — which dials its own fresh connection — so no
exchange ever happens over the upgraded connection; `SimpleQuery`, on the
same input, performs the exchange over the upgraded connection 0 with
`ExchangeWithConn`.  The two variants therefore do not perform the same
exchange over the dialed-and-upgraded connection, contradicting the
claim, the symmetry with `SimpleQuery`, and the source's own comment at
line 201 ("Upgrade connection to use randomized ClientHello"). -/
theorem simpleQueryWithNoResponse_tls_exchange_bug :
    SimpleQueryWithNoResponse TCPTLSProtoName tlsBugEnv tlsBugParams
      = [.dial "ns1.example.com:853", .upgradeTLS 0,
         .exchangeOwnDial "ns1.example.com:853" "a.example.com." dnsTypeA,
         .closeConn 0]
    ∧ (SimpleQuery TCPTLSProtoName tlsBugEnv tlsBugParams).1
      = [.dial "ns1.example.com:853", .upgradeTLS 0,
         .exchangeOverConn 0 "a.example.com." dnsTypeA,
         .closeConn 0]
    ∧ (SimpleQueryWithNoResponse TCPTLSProtoName tlsBugEnv tlsBugParams).countP
        (fun ev => match ev with | .exchangeOverConn _ _ _ => true | _ => false) = 0 := by
  decide

set_option maxRecDepth 20000 in
/-- C2 (counterexample): the heartbeat is not emitted once every 256
rounds: among rounds 0 to 255 — the first 256 rounds of the loop — it is
never emitted; the first heartbeat only comes in round 256 (the 257th
round), because the counter starts at 0 and the log fires when it
reaches 256. -/
theorem heartbeat_not_every_256_rounds :
    ((List.range 256).countP fun k => (roundRec 1 4 (fun _ => 0) k).heartbeat) = 0
    ∧ (roundRec 1 4 (fun _ => 0) 256).heartbeat = true := by
  decide

/-- C2 (amended): the heartbeat is emitted exactly once every 257 rounds
— in rounds 256, 513, 770, … (0-based), i.e. exactly when the round
index is congruent to 256 modulo 257 — and emitting it has no other
effect on the loop: every round dispatches `ParallelQueries` queries and
the round start times follow the counter-free pacing recurrence
`sTime`. -/
theorem heartbeat_every_257_rounds :
    ∀ (d N : Nat) (exec : Nat → Nat) (k : Nat),
      ((roundRec d N exec k).heartbeat = true ↔ k % 257 = 256)
      ∧ (roundRec d N exec k).dispatched = N
      ∧ (roundRec d N exec k).startTime = sTime d exec k := by
  intro d N exec k
  refine ⟨?_, roundRec_dispatched d N exec k, roundRec_startTime d N exec k⟩
  rw [roundRec_heartbeat, roundRec_kacBefore]
  simp

/-- C3: for a worker with fan-out `N`, at most `N` queries are ever
outstanding at any reachable state; when a round is about to write its
query name (`writeName`, the start of a round) no query is outstanding —
so round K+1 never starts before all of round K's queries have
completed; and at the post-join pacing point exactly `N` queries were
dispatched by the round and all of them have completed. -/
theorem round_fanout_bounded :
    ∀ (N : Nat) (s : WState), Reachable N s →
      s.outstanding ≤ N
      ∧ (s.phase = .writeName → s.outstanding = 0)
      ∧ (s.phase = .pace → s.outstanding = 0 ∧ s.spawnedInRound = N)
      ∧ (s.phase = .await → s.spawnedInRound = N) := by
  intro N s h
  obtain ⟨h1, h2, h3, h4, h5, h6, h7, h8, h9, h10, h11, h12⟩ := reachable_inv h
  exact ⟨h1, fun hp => (h5 (Or.inl hp)).1, h4, h3⟩

/-- C3 witness: the concrete post-join state of a fan-out-2 worker is
reachable and satisfies the fan-out bound and round-completion facts. -/
theorem round_fanout_bounded_witness :
    Reachable 2 paceState2
    ∧ paceState2.outstanding ≤ 2
    ∧ paceState2.outstanding = 0
    ∧ paceState2.spawnedInRound = 2 := by
  have h := round_fanout_bounded 2 paceState2 paceState2_reachable
  exact ⟨paceState2_reachable, h.1, (h.2.2.1 rfl).1, (h.2.2.1 rfl).2⟩

/-- C4: `Start` returns an error to the caller, and spawns no worker,
exactly when nameserver resolution fails; on success it returns one
spawned worker per resolved nameserver, all sharing the same parameter
projection of the config; and its return value is independent of the
worker bodies (`run` is forked with `go`, never awaited), so `Start`
returns without waiting for any worker. -/
theorem start_resolution_and_spawn :
    ∀ (config : Config) (run run2 : String → StressTestParameters → SetupOutcome)
      (lookupNS : String → Except String (List String)) (e : String) (hosts : List String),
      Start run (fun _ => .error e) config
        = .error ("failed to resolve nameservers for the root domain: " ++ e)
      ∧ Start run (fun _ => .ok hosts) config
        = .ok (hosts.map fun h =>
            { nameserver := joinHostPort h (toString (if config.Protocol = TCPTLSProtoName
                then DefaultDNSOverTLSPort else DefaultDNSPort))
              parameters := stressTestParametersOf config })
      ∧ Start run lookupNS config = Start run2 lookupNS config := by
  intro config run run2 lookupNS e hosts
  refine ⟨rfl, ?_, rfl⟩
  simp [Start, getNameservers]

/-- C5 (counterexample): the round-loop does not pass each round's name
as an immutable per-round copy: the QName field of the single shared
`QueryParameters` struct (allocated once, lines 94-98, and handed by
reference to every spawned goroutine, line 135) is mutated again by the
next round — here is a reachable state in round 1 in which that one
shared field has already been written twice (line 115, once per
round). -/
theorem qname_shared_field_written_twice :
    Reachable 1 qnameSecondWriteState
    ∧ qnameSecondWriteState.writes = 2
    ∧ qnameSecondWriteState.round = 1 := by
  exact ⟨qnameSecondWriteState_reachable, rfl, rfl⟩

/-- C5 (amended): per round, QName is written exactly once by the
round-loop (writes = round index + 1 from right after the round's write
through its pacing point, and = round index when the next round is about
to write), the write happens before any of the round's query tasks is
spawned, and no write occurs while any reader is active (no goroutine is
outstanding at any write point) — but this is achieved by mutating the
QName field of the one shared `QueryParameters` struct under a
write-before-spawn / join-before-next-write ordering, not by per-round
immutable value capture. -/
theorem qname_single_writer_discipline :
    ∀ (N : Nat) (s : WState), Reachable N s →
      ((s.phase = .writeName ∨ s.phase = .heartbeat ∨ s.phase = .checkCancel1) →
        s.outstanding = 0 ∧ s.spawnedInRound = 0)
      ∧ (s.phase = .writeName → s.writes = s.round)
      ∧ (s.phase = .pace → s.writes = s.round + 1) := by
  intro N s h
  obtain ⟨h1, h2, h3, h4, h5, h6, h7, h8, h9, h10, h11, h12⟩ := reachable_inv h
  exact ⟨h5, h11, fun hp => h12 (by simp [hp]) (by simp [hp])⟩

/-- C5 witness: at the reachable fan-out-1 pacing state of round 0, the
round performed its single write (writes = round + 1) and no goroutine
is outstanding. -/
theorem qname_single_writer_discipline_witness :
    Reachable 1 qnamePaceState
    ∧ qnamePaceState.writes = qnamePaceState.round + 1 := by
  have h := qname_single_writer_discipline 1 qnamePaceState qnamePaceState_reachable
  exact ⟨qnamePaceState_reachable, h.2.2 rfl⟩

/-- C6 (counterexample): the gap between consecutive round starts is not
Delay plus the round's execution time.  With Delay = 10 and every round
executing in 3 time units, rounds start at 0, 10, 20, …: the gap is 10
(the wait ends at the ticker's next tick), not 10 + 3 = 13. -/
theorem gap_not_delay_plus_exec :
    (roundRec 10 4 (fun _ => 3) 1).startTime - (roundRec 10 4 (fun _ => 3) 0).startTime = 10
    ∧ (roundRec 10 4 (fun _ => 3) 2).startTime - (roundRec 10 4 (fun _ => 3) 1).startTime = 10
    ∧ ¬((roundRec 10 4 (fun _ => 3) 1).startTime - (roundRec 10 4 (fun _ => 3) 0).startTime
        = 10 + 3) := by
  decide

/-- C6 (amended): after a round finishes the worker waits for either
cancellation or the next tick of the ticker of period Delay created at
worker start (not a fresh Delay): round K+1 starts at the later of round
K's end and the first tick after round K's start, so the gap between the
starts of rounds K and K+1 is at most max(Delay, round K's execution
time) — approximately Delay (ticker-aligned) for rounds faster than
Delay, not Delay plus the execution time. -/
theorem pacing_ticker_aligned :
    ∀ (d N : Nat) (exec : Nat → Nat) (k : Nat),
      (roundRec d N exec (k + 1)).startTime
        = max ((roundRec d N exec k).startTime + exec k)
            (leastMultGT d ((roundRec d N exec k).startTime))
      ∧ (roundRec d N exec (k + 1)).startTime - (roundRec d N exec k).startTime
          ≤ max (exec k) d := by
  intro d N exec k
  refine ⟨by simp [roundRec], ?_⟩
  have h := leastMultGT_le d (roundRec d N exec k).startTime
  simp only [roundRec]
  omega

/-- C7: at every reachable state the in-round count of executed
cancellation observations matches the two observation points of the loop
body — 0 before the pre-dispatch check (heartbeat, checkCancel1), 1
between that check and the post-join pacing select (dispatch, await,
pace), and 2 on entering the next round (writeName with round > 0), so a
complete round observes the signal exactly twice, before dispatch and
after the join; once the signal has fired, at most `N` further query
tasks — one round's worth — are ever spawned; and an in-flight query can
always take its completion step (queries are never force-aborted). -/
theorem cancellation_observed_and_bounded :
    ∀ (N : Nat) (s : WState), Reachable N s →
      ((s.phase = .heartbeat ∨ s.phase = .checkCancel1) → s.obs = 0)
      ∧ (((∃ k, s.phase = .dispatch k) ∨ s.phase = .await ∨ s.phase = .pace) → s.obs = 1)
      ∧ (s.phase = .writeName → s.obs = if s.round = 0 then 0 else 2)
      ∧ (s.canceled = true → s.sac ≤ N)
      ∧ (0 < s.outstanding → Step N s { s with outstanding := s.outstanding - 1 }) := by
  intro N s h
  obtain ⟨h1, h2, h3, h4, h5, h6, h7, h8, h9, h10, h11, h12⟩ := reachable_inv h
  refine ⟨h7, h8, h6, fun hc => ?_, fun ho => .taskDone s ho⟩
  have ha := h9 hc
  have hb := remSpawn_le N s.phase
  omega

/-- C7 witness: the concrete reachable state in which cancellation fired
while round 0's single query is in flight: one observation so far (the
pre-dispatch check), no task spawned after the signal, and the in-flight
query can still complete. -/
theorem cancellation_observed_and_bounded_witness :
    Reachable 1 canceledAwaitState
    ∧ canceledAwaitState.canceled = true
    ∧ canceledAwaitState.sac ≤ 1
    ∧ canceledAwaitState.obs = 1
    ∧ Step 1 canceledAwaitState
        { canceledAwaitState with outstanding := canceledAwaitState.outstanding - 1 } := by
  have h := cancellation_observed_and_bounded 1 canceledAwaitState canceledAwaitState_reachable
  exact ⟨canceledAwaitState_reachable, rfl, h.2.2.2.1 rfl, h.2.1 (Or.inr (Or.inl rfl)),
    h.2.2.2.2 (by decide)⟩

/-- C8: a failing query — dial error, or exchange error (which includes
timeout expiry, surfaced as an error by the client's timeouts) — makes
the fire-and-forget variant log the error and return normally, makes the
response-capturing variant return a `Response` whose `WithErr` flag is
set exactly on failure, and never aborts anything: both variants are
total with no failure outcome in their return types, and every round of
the loop still dispatches its `ParallelQueries` queries regardless of
any query's outcome (the loop never consumes query results). -/
theorem query_failures_logged_and_contained :
    ∀ (clientNet : String) (env : QueryEnv) (p : QueryParameters)
      (d N : Nat) (exec : Nat → Nat) (k : Nat),
      (queryFailed env = true → QueryEv.logErr ∈ SimpleQueryWithNoResponse clientNet env p)
      ∧ (SimpleQuery clientNet env p).2.WithErr = queryFailed env
      ∧ (roundRec d N exec (k + 1)).dispatched = N := by
  intro clientNet env p d N exec k
  refine ⟨?_, ?_, roundRec_dispatched d N exec (k + 1)⟩
  · intro hf
    cases hd : env.dial with
    | err msg => simp [SimpleQueryWithNoResponse, hd]
    | ok cid =>
      have hx : env.exchangeErr.isSome = true := by
        simpa [queryFailed, hd] using hf
      simp [SimpleQueryWithNoResponse, hd, hx]
  · cases hd : env.dial with
    | err msg => simp [SimpleQuery, queryFailed, hd]
    | ok cid => simp [SimpleQuery, queryFailed, hd]

/-- C8 witness: a concrete dial failure is logged by the fire-and-forget
variant, flagged by the response-capturing variant, and round 1 still
dispatches its 4 queries. -/
theorem query_failures_logged_and_contained_witness :
    queryFailed dialFailEnv = true
    ∧ QueryEv.logErr ∈ SimpleQueryWithNoResponse UDPProtoName dialFailEnv plainQueryParams
    ∧ (SimpleQuery UDPProtoName dialFailEnv plainQueryParams).2.WithErr = queryFailed dialFailEnv
    ∧ (roundRec 10 4 (fun _ => 3) 1).dispatched = 4 := by
  have h := query_failures_logged_and_contained UDPProtoName dialFailEnv plainQueryParams
    10 4 (fun _ => 3) 0
  exact ⟨by decide, h.1 (by decide), h.2.1, h.2.2⟩

/-- C9: nameserver resolution passes a lookup failure through as an
error with no endpoints, and on success returns exactly one
`host:port` string per NS record, with port 853 when Protocol = tcp-tls
and port 53 when Protocol is udp or tcp. -/
theorem getNameservers_port_selection :
    ∀ (rootDomain e : String) (hosts : List String),
      getNameservers (fun _ => .error e) rootDomain UDPProtoName = .error e
      ∧ getNameservers (fun _ => .error e) rootDomain TCPProtoName = .error e
      ∧ getNameservers (fun _ => .error e) rootDomain TCPTLSProtoName = .error e
      ∧ getNameservers (fun _ => .ok hosts) rootDomain TCPTLSProtoName
          = .ok (hosts.map fun h => joinHostPort h "853")
      ∧ getNameservers (fun _ => .ok hosts) rootDomain UDPProtoName
          = .ok (hosts.map fun h => joinHostPort h "53")
      ∧ getNameservers (fun _ => .ok hosts) rootDomain TCPProtoName
          = .ok (hosts.map fun h => joinHostPort h "53") := by
  intro rootDomain e hosts
  refine ⟨rfl, rfl, rfl, ?_, ?_, ?_⟩ <;>
    simp [getNameservers, UDPProtoName, TCPProtoName, TCPTLSProtoName,
      DefaultDNSPort, DefaultDNSOverTLSPort,
      show toString (853 : Nat) = "853" from rfl,
      show toString (53 : Nat) = "53" from rfl]

/-- C10: calling `ExecuteStressTest` with Delay = 0 — admitted by the
configuration contract's non-negative Delay — panics at the creation of
the inter-round ticker (line 102), which happens in the `var` block
before the blast loop is entered, so the worker dispatches no queries;
the panic is caught by the worker's deferred recovery boundary and does
not propagate. -/
theorem executeStressTest_zero_delay_panics :
    ∀ (generatorOk : Bool),
      executeStressTestSetup 0 generatorOk = .panicked tickerPanicMsg
      ∧ executeStressTestSetup 0 generatorOk ≠ .enteredLoop
      ∧ PanicHandler (executeStressTestSetup 0 generatorOk) = .recovered tickerPanicMsg := by
  intro generatorOk
  refine ⟨rfl, by simp [executeStressTestSetup, newTickerChecked, tickerPanicMsg], rfl⟩

/-- C10 witness: the zero-delay panic and its containment, evaluated
with a successfully bootstrapping generator. -/
theorem executeStressTest_zero_delay_panics_witness :
    executeStressTestSetup 0 true = .panicked tickerPanicMsg
    ∧ executeStressTestSetup 0 true ≠ .enteredLoop
    ∧ PanicHandler (executeStressTestSetup 0 true) = .recovered tickerPanicMsg :=
  executeStressTest_zero_delay_panics true

/-- C2 witness: the amended heartbeat schedule evaluated at round 256,
the first heartbeat round. -/
theorem heartbeat_every_257_rounds_witness :
    ((roundRec 1 4 (fun _ => 0) 256).heartbeat = true ↔ 256 % 257 = 256)
    ∧ (roundRec 1 4 (fun _ => 0) 256).dispatched = 4
    ∧ (roundRec 1 4 (fun _ => 0) 256).startTime = sTime 1 (fun _ => 0) 256 :=
  heartbeat_every_257_rounds 1 4 (fun _ => 0) 256

/-- C6 witness: the amended pacing facts evaluated at round 0 with
Delay = 10 and execution time 3. -/
theorem pacing_ticker_aligned_witness :
    (roundRec 10 4 (fun _ => 3) 1).startTime
      = max ((roundRec 10 4 (fun _ => 3) 0).startTime + 3)
          (leastMultGT 10 ((roundRec 10 4 (fun _ => 3) 0).startTime))
    ∧ (roundRec 10 4 (fun _ => 3) 1).startTime - (roundRec 10 4 (fun _ => 3) 0).startTime
        ≤ max 3 10 :=
  pacing_ticker_aligned 10 4 (fun _ => 3) 0

/-- C4 witness: `Start` evaluated on a concrete config, with a failing
and with a succeeding resolver. -/
theorem start_resolution_and_spawn_witness :
    Start (fun _ _ => .enteredLoop) (fun _ => .error "no such host") demoConfig
      = .error "failed to resolve nameservers for the root domain: no such host"
    ∧ Start (fun _ _ => .enteredLoop) (fun _ => .ok ["ns1.example.com"]) demoConfig
      = .ok [{ nameserver := "ns1.example.com:53",
               parameters := stressTestParametersOf demoConfig }]
    ∧ Start (fun _ _ => .enteredLoop) (fun _ => .ok ["ns1.example.com"]) demoConfig
      = Start (fun _ _ => .panicked "x") (fun _ => .ok ["ns1.example.com"]) demoConfig := by
  have h := start_resolution_and_spawn demoConfig (fun _ _ => .enteredLoop)
    (fun _ _ => .panicked "x") (fun _ => .ok ["ns1.example.com"])
    "no such host" ["ns1.example.com"]
  exact ⟨h.1, h.2.1, h.2.2⟩

/-- C9 witness: resolution evaluated on a concrete host list and a
concrete lookup error, for all three protocols. -/
theorem getNameservers_port_selection_witness :
    getNameservers (fun _ => .error "no such host") "example.com" UDPProtoName
      = .error "no such host"
    ∧ getNameservers (fun _ => .error "no such host") "example.com" TCPProtoName
      = .error "no such host"
    ∧ getNameservers (fun _ => .error "no such host") "example.com" TCPTLSProtoName
      = .error "no such host"
    ∧ getNameservers (fun _ => .ok ["ns1.example.com"]) "example.com" TCPTLSProtoName
      = .ok ["ns1.example.com:853"]
    ∧ getNameservers (fun _ => .ok ["ns1.example.com"]) "example.com" UDPProtoName
      = .ok ["ns1.example.com:53"]
    ∧ getNameservers (fun _ => .ok ["ns1.example.com"]) "example.com" TCPProtoName
      = .ok ["ns1.example.com:53"] :=
  getNameservers_port_selection "example.com" "no such host" ["ns1.example.com"]

end DnsBlast
